import Mathlib

/-!
Shallow embedding of `mdServerTlfStorage` (the per-TLF metadata storage
coordinator of kbfs) together with its three sub-stores: the
content-addressed metadata-object store (`dir/mds`), the content-addressed
key-bundle store (`dir/wkbv3`, `dir/rkbv3`), and the per-branch append-only
revision journal (`dir/md_branch_journals`).

Modelling conventions:
- Opaque identifiers (UIDs, verifying keys, branch ids, bundle ids, MdIDs,
  bundle contents) are `Nat`; the zero value stands for the Go zero value
  (`TLFWriterKeyBundleID{}`, `NullBranchID`, ...).
- `MetadataRevision` is `Int` (Go `int64`; overflow is not exercised).
- The filesystem is a `State` of partial maps keyed by the id from which the
  source derives the path (path derivation is injective in the id, so the id
  itself serves as the path).
- The codec is opaque (spec section 1), so serialization is the identity:
  the stored envelope holds the structured value, and
  `DecodeRootMetadataSigned` / `EncodeRootMetadataSigned` never fail.
- The crypto collaborator is a structure `Env` of pure functions
  (spec section 6 treats hash/verify as pure), as are the authorization
  predicates and the metadata validators.
- Go `panic` sites are modelled as distinguished error values
  (`panicEmptyWKBID`, `panicEmptyRKBID`, `panicRevisionMismatch`).
- Functions of the source that perform no mutation are embedded as pure
  functions of `State`; mutating functions return the new `State` alongside
  the `Except` result, so that partial mutation before a failure is
  observable.
-/

namespace KbfsMdStorage

/-- Merge status of a metadata object (`MergedStatus()`). -/
inductive MergeStatus where
  | merged
  | unmerged
deriving DecidableEq, Repr

/-- The typed accessors of a root metadata object that the coordinator uses:
`RevisionNumber()`, `BID()`, `MergedStatus()`, `GetTLFWriterKeyBundleID()`,
`GetTLFReaderKeyBundleID()`, `Version()`; `payload` stands for the opaque
encoded content that the content-address hash is computed over. -/
structure RootMetadata where
  revision : Int
  bid : Nat
  mStatus : MergeStatus
  wkbID : Nat
  rkbID : Nat
  version : Nat
  payload : Nat
deriving DecidableEq, Repr

/-- A signed metadata envelope (`RootMetadataSigned`): the metadata plus its
opaque signature bytes. -/
structure RootMetadataSigned where
  MD : RootMetadata
  sigBytes : Nat
deriving DecidableEq, Repr

/-- The `ExtraMetadata` interface: either the V3 key-bundle pair
(`ExtraMetadataV3{wkb, rkb}`) or some other implementation of the interface
(the runtime type assertion in `putExtraMetadataLocked` can fail). -/
inductive ExtraMetadata where
  | v3 (wkb rkb : Nat)
  | otherVariant
deriving DecidableEq, Repr

/-- Error taxonomy of the source: `wrapped` is `MDServerError{err}`,
`unauthorized` is `MDServerErrorUnauthorized{}`, `badRequest` is
`MDServerErrorBadRequest{...}`, `shutdownErr` is
`errMDServerTlfStorageShutdown`, `notFound` is the `os.IsNotExist` error from
`DeserializeFromFile`, the mismatch constructors are the `fmt.Errorf`
integrity failures, the `panic...` constructors are the panic sites, and
`revisionGap` is the journal's consistency error on a non-contiguous append. -/
inductive Err where
  | wrapped (e : Err)
  | unauthorized
  | badRequest
  | shutdownErr
  | notFound
  | mdIDMismatch (expected got : Nat)
  | wkbIDMismatch (expected got : Nat)
  | rkbIDMismatch (expected got : Nat)
  | bundleEmptyMismatch
  | invalidExtra
  | panicEmptyWKBID
  | panicEmptyRKBID
  | panicRevisionMismatch (expected got : Int)
  | unexpectedBlockCount (n : Nat)
  | revisionGap (expected got : Int)
deriving DecidableEq, Repr

/-- The pure collaborators (spec section 6): content-address hash functions,
authorization predicates, metadata validators, the server-side successor
check, and the clock. `checkValidSuccessor hID hMD newMD = none` means the
check passed; `some e` is the raw error it returns. -/
structure Env where
  makeMdID : RootMetadata → Nat
  makeWKBID : Nat → Nat
  makeRKBID : Nat → Nat
  isReader : Nat → RootMetadata → Option ExtraMetadata → Bool
  isWriterOrValidRekey : Nat → RootMetadata → RootMetadata → Option ExtraMetadata →
    Option ExtraMetadata → Bool
  isValidAndSigned : RootMetadataSigned → Option ExtraMetadata → Bool
  isLastModifiedBy : RootMetadataSigned → Nat → Nat → Bool
  checkValidSuccessor : Nat → RootMetadata → RootMetadata → Option Err
  now : Nat

/-- `serializedRMDS`, the envelope stored at `mdPath(id)`: the encoded signed
metadata (opaque codec, so kept structured), the storage timestamp, and the
format version. -/
structure SerializedRMDS where
  encodedRMDS : RootMetadataSigned
  timestamp : Nat
  version : Nat
deriving DecidableEq, Repr

/-- `mdIDJournalEntry`: a journal entry holds the `MdID` of the object stored
at that revision. -/
structure MdIDJournalEntry where
  ID : Nat
deriving DecidableEq, Repr

/-- Modelled from the spec: the `mdIDJournal` implementation is not under
`src/` (only its callers are). Spec section 4.3: an ordinal log, one per
branch; entry `i` of `entries` sits at revision `start + i`; the empty
journal is `entries = []`. -/
structure MdIDJournal where
  start : Int
  entries : List MdIDJournalEntry
deriving DecidableEq, Repr

/-- Modelled from the spec: `makeMdIDJournal` creates an empty journal. -/
def makeMdIDJournal : MdIDJournal := { start := 0, entries := [] }

/-- Modelled from the spec: `length() -> count of entries`. -/
def MdIDJournal.length (j : MdIDJournal) : Nat := j.entries.length

/-- Modelled from the spec: `latestEntry() -> entry | none`, the most
recently appended entry, or none if the journal is empty. -/
def MdIDJournal.getLatestEntry (j : MdIDJournal) : Option MdIDJournalEntry :=
  j.entries.getLast?

/-- Modelled from the spec: `append(revision, entry)` — the first append
establishes the journal's starting revision; every subsequent append's
revision must equal the previous append's revision + 1, otherwise it fails
with an explicit consistency error. -/
def MdIDJournal.append (j : MdIDJournal) (revision : Int) (entry : MdIDJournalEntry) :
    Except Err MdIDJournal :=
  match j.entries with
  | [] => .ok { start := revision, entries := [entry] }
  | es =>
    if revision = j.start + es.length then .ok { j with entries := es ++ [entry] }
    else .error (.revisionGap (j.start + es.length) revision)

/-- Modelled from the spec: `entryRange(start, stop)` returns the entries
whose revisions fall in `[start, stop]`, clamped to what actually exists,
along with the first revision actually returned. -/
def MdIDJournal.getEntryRange (j : MdIDJournal) (start stop : Int) :
    Int × List MdIDJournalEntry :=
  match j.entries with
  | [] => (start, [])
  | es =>
    let realStart := max start j.start
    let realStop := min stop (j.start + es.length - 1)
    if realStop < realStart then (realStart, [])
    else (realStart, (es.drop (realStart - j.start).toNat).take (realStop - realStart + 1).toNat)

/-- The `BranchID` zero value, identifying the canonical merged history. -/
def NullBranchID : Nat := 0

/-- The mutable state of one `mdServerTlfStorage`: the three on-disk stores
(partial maps keyed by the id the path is derived from) and the in-memory
branch-journal map. `branchJournals = none` is the Go nil map, the shutdown
sentinel. -/
structure State where
  mds : Nat → Option SerializedRMDS
  wkbFiles : Nat → Option Nat
  rkbFiles : Nat → Option Nat
  branchJournals : Option (Nat → Option MdIDJournal)

/-- Reading `s.branchJournals[bid]` with Go semantics: indexing a nil map
yields a miss. -/
def State.journalLookup (s : State) (bid : Nat) : Option MdIDJournal :=
  match s.branchJournals with
  | none => none
  | some m => m bid

/-- `isShutdownReadLocked`: the journal map being nil means shut down. -/
def State.isShutdownReadLocked (s : State) : Bool :=
  s.branchJournals.isNone

/-- `getMDReadLocked(id)`: read the envelope at `mdPath(id)` (miss ⇒ the
not-exist error), decode it (opaque codec, never fails), recompute the
content address of the decoded metadata, and fail on mismatch. -/
def getMDReadLocked (s : State) (env : Env) (id : Nat) : Except Err RootMetadataSigned :=
  match s.mds id with
  | none => .error .notFound
  | some srmds =>
    let rmds := srmds.encodedRMDS
    let mdID := env.makeMdID rmds.MD
    if id = mdID then .ok rmds
    else .error (.mdIDMismatch id mdID)

/-- `putMDLocked(rmds)`: compute the content address; if `getMDReadLocked`
finds the entry already present, return the id without writing; if it fails
with anything but not-exist, propagate; otherwise write the envelope (with
the clock's timestamp and the metadata's format version) at `mdPath(id)`. -/
def putMDLocked (s : State) (env : Env) (rmds : RootMetadataSigned) :
    State × Except Err Nat :=
  let id := env.makeMdID rmds.MD
  match getMDReadLocked s env id with
  | .error .notFound =>
    let srmds : SerializedRMDS :=
      { encodedRMDS := rmds, timestamp := env.now, version := rmds.MD.version }
    ({ s with mds := fun i => if i = id then some srmds else s.mds i }, .ok id)
  | .error e => (s, .error e)
  | .ok _ => (s, .ok id)

/-- `checkKeyBundlesV3`: recompute each bundle's content address and fail if
either differs from the stated id. -/
def checkKeyBundlesV3 (env : Env) (wkbID rkbID wkb rkb : Nat) : Option Err :=
  let computedWKBID := env.makeWKBID wkb
  if wkbID ≠ computedWKBID then some (.wkbIDMismatch wkbID computedWKBID)
  else
    let computedRKBID := env.makeRKBID rkb
    if rkbID ≠ computedRKBID then some (.rkbIDMismatch rkbID computedRKBID)
    else none

/-- `getKeyBundlesReadLocked(wkbID, rkbID)`: exactly one id empty ⇒
malformed-request error; both empty ⇒ absent (`(nil, nil, nil)`); both
non-empty ⇒ read both bundle files, verify both content addresses, return
the verified pair. -/
def getKeyBundlesReadLocked (s : State) (env : Env) (wkbID rkbID : Nat) :
    Except Err (Option Nat × Option Nat) :=
  if (wkbID == 0) ≠ (rkbID == 0) then .error .bundleEmptyMismatch
  else if wkbID = 0 then .ok (none, none)
  else
    match s.wkbFiles wkbID with
    | none => .error .notFound
    | some wkb =>
      match s.rkbFiles rkbID with
      | none => .error .notFound
      | some rkb =>
        match checkKeyBundlesV3 env wkbID rkbID wkb rkb with
        | some e => .error e
        | none => .ok (some wkb, some rkb)

/-- `getExtraMetadataReadLocked`: wrap the verified pair as
`ExtraMetadataV3`, or nil when the pair is absent. -/
def getExtraMetadataReadLocked (s : State) (env : Env) (wkbID rkbID : Nat) :
    Except Err (Option ExtraMetadata) :=
  match getKeyBundlesReadLocked s env wkbID rkbID with
  | .error e => .error e
  | .ok (some wkb, some rkb) => .ok (some (.v3 wkb rkb))
  | .ok _ => .ok none

/-- `putExtraMetadataLocked(rmds, extra)`: nil extra is a no-op; panics when
the metadata's bundle ids are empty; fails the runtime type assertion on a
non-V3 extra; re-verifies the computed ids (defense in depth); then writes
both bundles to their content-addressed paths. -/
def putExtraMetadataLocked (s : State) (env : Env) (rmds : RootMetadataSigned)
    (extra : Option ExtraMetadata) : State × Except Err Unit :=
  match extra with
  | none => (s, .ok ())
  | some ex =>
    let wkbID := rmds.MD.wkbID
    if wkbID = 0 then (s, .error .panicEmptyWKBID)
    else
      let rkbID := rmds.MD.rkbID
      if rkbID = 0 then (s, .error .panicEmptyRKBID)
      else
        match ex with
        | .otherVariant => (s, .error .invalidExtra)
        | .v3 wkb rkb =>
          match checkKeyBundlesV3 env wkbID rkbID wkb rkb with
          | some e => (s, .error e)
          | none =>
            ({ s with
                wkbFiles := fun i => if i = wkbID then some wkb else s.wkbFiles i,
                rkbFiles := fun i => if i = rkbID then some rkb else s.rkbFiles i },
             .ok ())

/-- `getOrCreateBranchJournalLocked(bid)`: return the cached journal handle,
or create the branch directory and an empty journal and cache it. (The
`branchJournals = none` case is unreachable: every caller has already
checked for shutdown.) -/
def getOrCreateBranchJournalLocked (s : State) (bid : Nat) : MdIDJournal × State :=
  match s.branchJournals with
  | none => (makeMdIDJournal, s)
  | some m =>
    match m bid with
    | some j => (j, s)
    | none =>
      let j := makeMdIDJournal
      (j, { s with branchJournals := some (fun b => if b = bid then some j else m b) })

/-- `getHeadForTLFReadLocked(bid)`: nil when the branch has no cached
journal or the journal is empty; otherwise resolve the latest entry's id
through the object store (errors propagate unwrapped). -/
def getHeadForTLFReadLocked (s : State) (env : Env) (bid : Nat) :
    Except Err (Option RootMetadataSigned) :=
  match s.journalLookup bid with
  | none => .ok none
  | some j =>
    match j.getLatestEntry with
    | none => .ok none
    | some entry =>
      match getMDReadLocked s env entry.ID with
      | .error e => .error e
      | .ok rmds => .ok (some rmds)

/-- `checkGetParamsReadLocked(currentUID, bid)`: the authorization gate of
the read path — load the merged history's head; if present, resolve its
bundles and require `isReader`; absent head means anyone may proceed. The
requested branch id is unused by the gate. -/
def checkGetParamsReadLocked (s : State) (env : Env) (currentUID : Nat) (bid : Nat) :
    Except Err Unit :=
  match getHeadForTLFReadLocked s env NullBranchID with
  | .error e => .error (.wrapped e)
  | .ok none => .ok ()
  | .ok (some mergedMasterHead) =>
    match getExtraMetadataReadLocked s env mergedMasterHead.MD.wkbID
        mergedMasterHead.MD.rkbID with
    | .error e => .error (.wrapped e)
    | .ok extra =>
      if env.isReader currentUID mergedMasterHead.MD extra then .ok ()
      else .error .unauthorized

/-- The resolution loop of `getRangeReadLocked`: resolve each entry through
the object store (errors wrapped), and panic if an object's embedded
revision disagrees with the ordinal it was stored under. -/
def resolveRangeEntries (s : State) (env : Env) :
    Int → List MdIDJournalEntry → Except Err (List RootMetadataSigned)
  | _, [] => .ok []
  | expected, entry :: rest =>
    match getMDReadLocked s env entry.ID with
    | .error e => .error (.wrapped e)
    | .ok rmds =>
      if expected ≠ rmds.MD.revision then
        .error (.panicRevisionMismatch expected rmds.MD.revision)
      else
        match resolveRangeEntries s env (expected + 1) rest with
        | .error e => .error e
        | .ok rmdses => .ok (rmds :: rmdses)

/-- `getRangeReadLocked(currentUID, bid, start, stop)`: authorization gate,
then the branch journal's clamped entry range, each entry resolved to its
signed object. -/
def getRangeReadLocked (s : State) (env : Env) (currentUID : Nat) (bid : Nat)
    (start stop : Int) : Except Err (List RootMetadataSigned) :=
  match checkGetParamsReadLocked s env currentUID bid with
  | .error e => .error e
  | .ok _ =>
    match s.journalLookup bid with
    | none => .ok []
    | some j =>
      let p := j.getEntryRange start stop
      resolveRangeEntries s env p.1 p.2

/-- `journalLength(bid)`: shutdown check, then the cached journal's length
(0 for an unknown branch). -/
def journalLength (s : State) (bid : Nat) : Except Err Nat :=
  if s.isShutdownReadLocked then .error .shutdownErr
  else
    match s.journalLookup bid with
    | none => .ok 0
    | some j => .ok j.length

/-- `getForTLF(currentUID, bid)`: shutdown check, authorization gate, then
the branch's head resolved to its signed object (head-resolution errors
wrapped). -/
def getForTLF (s : State) (env : Env) (currentUID : Nat) (bid : Nat) :
    Except Err (Option RootMetadataSigned) :=
  if s.isShutdownReadLocked then .error .shutdownErr
  else
    match checkGetParamsReadLocked s env currentUID bid with
    | .error e => .error e
    | .ok _ =>
      match getHeadForTLFReadLocked s env bid with
      | .error e => .error (.wrapped e)
      | .ok rmds => .ok rmds

/-- `getRange(currentUID, bid, start, stop)`: shutdown check, then
`getRangeReadLocked`. -/
def getRange (s : State) (env : Env) (currentUID : Nat) (bid : Nat)
    (start stop : Int) : Except Err (List RootMetadataSigned) :=
  if s.isShutdownReadLocked then .error .shutdownErr
  else getRangeReadLocked s env currentUID bid start stop

/-- `getKeyBundles(wkbID, rkbID)`: takes the exclusive lock and delegates to
`getKeyBundlesReadLocked`. Note: unlike every other public operation, it
performs no shutdown check. -/
def getKeyBundles (s : State) (env : Env) (wkbID rkbID : Nat) :
    Except Err (Option Nat × Option Nat) :=
  getKeyBundlesReadLocked s env wkbID rkbID

/-- `shutdown()`: clear the journal map (the nil map is the shutdown
sentinel). -/
def shutdown (s : State) : State := { s with branchJournals := none }

/-- `put` lines 479-487: when the caller supplied no extra metadata, resolve
it from the ids embedded in the metadata (errors wrapped). -/
def resolveExtraForPut (s : State) (env : Env) (rmds : RootMetadataSigned)
    (extra0 : Option ExtraMetadata) : Except Err (Option ExtraMetadata) :=
  match extra0 with
  | some ex => .ok (some ex)
  | none =>
    match getExtraMetadataReadLocked s env rmds.MD.wkbID rmds.MD.rkbID with
    | .error e => .error (.wrapped e)
    | .ok ex => .ok ex

/-- `put` lines 499-524: load the merged history's head; if present, resolve
its bundles and require `isWriterOrValidRekey`; absent head means any caller
may bootstrap. -/
def checkPermsForPut (s : State) (env : Env) (currentUID : Nat)
    (rmds : RootMetadataSigned) (extra : Option ExtraMetadata) : Except Err Unit :=
  match getHeadForTLFReadLocked s env NullBranchID with
  | .error e => .error (.wrapped e)
  | .ok none => .ok ()
  | .ok (some mergedMasterHead) =>
    match getExtraMetadataReadLocked s env mergedMasterHead.MD.wkbID
        mergedMasterHead.MD.rkbID with
    | .error e => .error (.wrapped e)
    | .ok prevExtra =>
      if env.isWriterOrValidRekey currentUID mergedMasterHead.MD rmds.MD prevExtra extra
      then .ok ()
      else .error .unauthorized

/-- `put` lines 526-549: resolve the comparison head — normally the target
branch's own head; when the incoming object is unmerged and its branch has
no head, the merged history's entry at `revision - 1`, signalling
`recordBranchID = true`. -/
def resolveBranchHead (s : State) (env : Env) (currentUID : Nat)
    (rmds : RootMetadataSigned) : Except Err (Bool × Option RootMetadataSigned) :=
  match getHeadForTLFReadLocked s env rmds.MD.bid with
  | .error e => .error (.wrapped e)
  | .ok head =>
    match rmds.MD.mStatus, head with
    | .unmerged, none =>
      let prevRev := rmds.MD.revision - 1
      match getRangeReadLocked s env currentUID NullBranchID prevRev prevRev with
      | .error e => .error (.wrapped e)
      | .ok [r] => .ok (true, some r)
      | .ok rmdses => .error (.wrapped (.unexpectedBlockCount rmdses.length))
    | _, _ => .ok (false, head)

/-- `put` lines 551-562: when a comparison head exists, compute its id and
run the server-side successor check; its failure is returned unwrapped. -/
def checkSuccessorForPut (env : Env) (head : Option RootMetadataSigned)
    (rmds : RootMetadataSigned) : Except Err Unit :=
  match head with
  | none => .ok ()
  | some h =>
    let headID := env.makeMdID h.MD
    match env.checkValidSuccessor headID h.MD rmds.MD with
    | some e => .error e
    | none => .ok ()

/-- `put` lines 564-584: persist the object, persist the key-bundle pair,
create the branch journal if needed, append `(revision, id)` — in that
order; store and append failures are wrapped. -/
def persistForPut (s : State) (env : Env) (rmds : RootMetadataSigned)
    (extra : Option ExtraMetadata) (recordBranchID : Bool) : State × Except Err Bool :=
  match putMDLocked s env rmds with
  | (s1, .error e) => (s1, .error (.wrapped e))
  | (s1, .ok id) =>
    match putExtraMetadataLocked s1 env rmds extra with
    | (s2, .error e) => (s2, .error (.wrapped e))
    | (s2, .ok _) =>
      let p := getOrCreateBranchJournalLocked s2 rmds.MD.bid
      match p.1.append rmds.MD.revision { ID := id } with
      | .error e => (p.2, .error (.wrapped e))
      | .ok j2 =>
        match p.2.branchJournals with
        | none => (p.2, .ok recordBranchID)
        | some m3 =>
          ({ p.2 with
              branchJournals := some (fun b => if b = rmds.MD.bid then some j2 else m3 b) },
           .ok recordBranchID)

/-- `put(currentUID, currentVerifyingKey, rmds, extra)`: shutdown check,
extra resolution, well-formedness and attribution validation, write
authorization, comparison-head resolution, successor check, then the
persistence sequence. -/
def put (s : State) (env : Env) (currentUID currentVerifyingKey : Nat)
    (rmds : RootMetadataSigned) (extra0 : Option ExtraMetadata) :
    State × Except Err Bool :=
  if s.isShutdownReadLocked then (s, .error .shutdownErr)
  else
    match resolveExtraForPut s env rmds extra0 with
    | .error e => (s, .error e)
    | .ok extra =>
      if ! env.isValidAndSigned rmds extra then (s, .error .badRequest)
      else if ! env.isLastModifiedBy rmds currentUID currentVerifyingKey then
        (s, .error .badRequest)
      else
        match checkPermsForPut s env currentUID rmds extra with
        | .error e => (s, .error e)
        | .ok _ =>
          match resolveBranchHead s env currentUID rmds with
          | .error e => (s, .error e)
          | .ok (recordBranchID, head) =>
            match checkSuccessorForPut env head rmds with
            | .error e => (s, .error e)
            | .ok _ => persistForPut s env rmds extra recordBranchID

/-! Concrete fixtures used by the witness theorems. -/

/-- A baseline collaborator environment: the content address of a metadata
object is its payload, bundle ids are the bundle contents themselves, and
every predicate accepts. -/
def envBase : Env where
  makeMdID := fun md => md.payload
  makeWKBID := fun w => w
  makeRKBID := fun r => r
  isReader := fun _ _ _ => true
  isWriterOrValidRekey := fun _ _ _ _ _ => true
  isValidAndSigned := fun _ _ => true
  isLastModifiedBy := fun _ _ _ => true
  checkValidSuccessor := fun _ _ _ => none
  now := 0

/-- An open storage with empty stores and an empty branch-journal map. -/
def emptyState : State where
  mds := fun _ => none
  wkbFiles := fun _ => none
  rkbFiles := fun _ => none
  branchJournals := some fun _ => none

/-- A merged-history head: revision 1 on the null branch, no bundles,
content address 5 under `envBase`. -/
def headMD : RootMetadata where
  revision := 1
  bid := 0
  mStatus := .merged
  wkbID := 0
  rkbID := 0
  version := 3
  payload := 5

/-- The signed envelope of `headMD`. -/
def headRmds : RootMetadataSigned := { MD := headMD, sigBytes := 0 }

/-- A storage whose merged history holds `headRmds` at revision 1. -/
def stateWithHead : State where
  mds := fun i =>
    if i = 5 then some { encodedRMDS := headRmds, timestamp := 0, version := 3 } else none
  wkbFiles := fun _ => none
  rkbFiles := fun _ => none
  branchJournals := some fun b =>
    if b = 0 then some { start := 1, entries := [{ ID := 5 }] } else none

/-- A fresh merged revision-1 object for the null branch, content address 5
under `envBase`. -/
def newMD : RootMetadata where
  revision := 1
  bid := 0
  mStatus := .merged
  wkbID := 0
  rkbID := 0
  version := 3
  payload := 5

/-- The signed envelope of `newMD`. -/
def newRmds : RootMetadataSigned := { MD := newMD, sigBytes := 0 }

/-- A merged revision-2 successor of `headMD`, content address 6. -/
def nextMD : RootMetadata := { newMD with revision := 2, payload := 6 }

/-- The signed envelope of `nextMD`. -/
def nextRmds : RootMetadataSigned := { MD := nextMD, sigBytes := 0 }

/-- An unmerged revision-2 object on branch 7, content address 6. -/
def unmergedMD : RootMetadata :=
  { newMD with revision := 2, bid := 7, mStatus := .unmerged, payload := 6 }

/-- The signed envelope of `unmergedMD`. -/
def unmergedRmds : RootMetadataSigned := { MD := unmergedMD, sigBytes := 0 }

/-- `envBase` with a successor check that rejects everything with a
bad-request error. -/
def envSuccFail : Env :=
  { envBase with checkValidSuccessor := fun _ _ _ => some .badRequest }

/-- `envBase` with a caller who is a reader of nothing. -/
def envNoRead : Env := { envBase with isReader := fun _ _ _ => false }

/-- `envBase` with a writer-bundle hash that never matches a stored id. -/
def envBadHash : Env := { envBase with makeWKBID := fun w => w + 1 }

/-- A storage holding the writer bundle 4 and the reader bundle 6 under
their own ids. -/
def stateWithBundles : State :=
  { emptyState with
      wkbFiles := fun i => if i = 4 then some 4 else none
      rkbFiles := fun i => if i = 6 then some 6 else none }

/-- A storage whose object store holds, at path 5, an envelope whose decoded
payload re-hashes to 8 (on-disk corruption). -/
def stateCorrupt : State :=
  { emptyState with
      mds := fun i =>
        if i = 5 then
          some { encodedRMDS := { MD := { newMD with payload := 8 }, sigBytes := 0 },
                 timestamp := 0, version := 3 }
        else none }

/-! Claim theorems. -/

/-- C1: after `shutdown()` clears the journal map, `journalLength`,
`getForTLF`, `getRange`, and `put` all fail fast with the shutdown error and
leave the state untouched — but `getKeyBundles` performs no shutdown check
at all: with both bundle ids empty it still returns the absent pair
successfully instead of a ShutdownError (and with non-empty ids it would
read the bundle files), contradicting the claim that every operation
invoked after shutdown returns a ShutdownError without filesystem access. -/
theorem C1_shutdown_gate_incomplete (s : State) (env : Env)
    (uid vkey bid : Nat) (start stop : Int) (rmds : RootMetadataSigned)
    (extra : Option ExtraMetadata)
    (h : s.branchJournals = none) :
    journalLength s bid = .error .shutdownErr ∧
    getForTLF s env uid bid = .error .shutdownErr ∧
    getRange s env uid bid start stop = .error .shutdownErr ∧
    put s env uid vkey rmds extra = (s, .error .shutdownErr) ∧
    getKeyBundles s env 0 0 = .ok (none, none) := by
  refine ⟨?_, ?_, ?_, ?_, ?_⟩ <;>
    simp [journalLength, getForTLF, getRange, put, getKeyBundles,
      getKeyBundlesReadLocked, State.isShutdownReadLocked, h]

/-- C1 witness: the divergence at a concrete shutdown storage. -/
theorem C1_shutdown_gate_incomplete_wit :
    journalLength (shutdown emptyState) 3 = .error .shutdownErr ∧
    getForTLF (shutdown emptyState) envBase 1 3 = .error .shutdownErr ∧
    getRange (shutdown emptyState) envBase 1 3 1 2 = .error .shutdownErr ∧
    put (shutdown emptyState) envBase 1 2 newRmds none =
      (shutdown emptyState, .error .shutdownErr) ∧
    getKeyBundles (shutdown emptyState) envBase 0 0 = .ok (none, none) :=
  C1_shutdown_gate_incomplete (shutdown emptyState) envBase 1 2 3 1 2 newRmds none rfl

/-- C7: `getMDReadLocked(id)` fails with the not-found error when no file
exists at the path derived from `id`; otherwise it decodes the stored
envelope, recomputes the content address of the decoded payload, fails with
the integrity-mismatch error when it differs from `id`, and returns the
object when it matches. -/
theorem C7_getMD_integrity (s : State) (env : Env) (id : Nat) (srmds : SerializedRMDS) :
    (s.mds id = none → getMDReadLocked s env id = .error .notFound) ∧
    (s.mds id = some srmds →
      (id ≠ env.makeMdID srmds.encodedRMDS.MD →
        getMDReadLocked s env id =
          .error (.mdIDMismatch id (env.makeMdID srmds.encodedRMDS.MD))) ∧
      (id = env.makeMdID srmds.encodedRMDS.MD →
        getMDReadLocked s env id = .ok srmds.encodedRMDS)) := by
  refine ⟨fun h => ?_, fun h => ⟨fun hne => ?_, fun he => ?_⟩⟩
  · simp [getMDReadLocked, h]
  · simp [getMDReadLocked, h, hne]
  · simp only [getMDReadLocked]
    rw [h]
    simp [he]

/-- C7 witness: the three cases at concrete storages. -/
theorem C7_getMD_integrity_wit :
    getMDReadLocked emptyState envBase 9 = .error .notFound ∧
    getMDReadLocked stateWithHead envBase 5 = .ok headRmds ∧
    getMDReadLocked stateCorrupt envBase 5 = .error (.mdIDMismatch 5 8) :=
  ⟨(C7_getMD_integrity emptyState envBase 9
      { encodedRMDS := headRmds, timestamp := 0, version := 3 }).1 rfl,
   ((C7_getMD_integrity stateWithHead envBase 5
      { encodedRMDS := headRmds, timestamp := 0, version := 3 }).2 rfl).2 rfl,
   ((C7_getMD_integrity stateCorrupt envBase 5
      { encodedRMDS := { MD := { newMD with payload := 8 }, sigBytes := 0 },
        timestamp := 0, version := 3 }).2 rfl).1 (by decide)⟩

/-- C3: the key-bundle read operation: both ids empty returns the absent
pair with no error; exactly one id empty fails with the malformed-request
error; both non-empty reads both bundles from their derived paths,
recomputes each one's content address, fails with the corresponding
integrity mismatch when either recomputed address differs from its requested
id, and otherwise returns the verified pair. -/
theorem C3_key_bundle_read_cases (s : State) (env : Env) (wkbID rkbID wkb rkb : Nat) :
    getKeyBundlesReadLocked s env 0 0 = .ok (none, none) ∧
    (wkbID ≠ 0 → getKeyBundlesReadLocked s env wkbID 0 = .error .bundleEmptyMismatch) ∧
    (rkbID ≠ 0 → getKeyBundlesReadLocked s env 0 rkbID = .error .bundleEmptyMismatch) ∧
    (wkbID ≠ 0 → rkbID ≠ 0 → s.wkbFiles wkbID = some wkb → s.rkbFiles rkbID = some rkb →
      ((env.makeWKBID wkb ≠ wkbID →
        getKeyBundlesReadLocked s env wkbID rkbID =
          .error (.wkbIDMismatch wkbID (env.makeWKBID wkb))) ∧
       (env.makeWKBID wkb = wkbID → env.makeRKBID rkb ≠ rkbID →
        getKeyBundlesReadLocked s env wkbID rkbID =
          .error (.rkbIDMismatch rkbID (env.makeRKBID rkb))) ∧
       (env.makeWKBID wkb = wkbID → env.makeRKBID rkb = rkbID →
        getKeyBundlesReadLocked s env wkbID rkbID = .ok (some wkb, some rkb)))) := by
  refine ⟨?_, fun hw => ?_, fun hr => ?_,
    fun hw hr hwf hrf => ⟨fun hcw => ?_, fun hcw hcr => ?_, fun hcw hcr => ?_⟩⟩
  · simp [getKeyBundlesReadLocked]
  · simp [getKeyBundlesReadLocked, hw]
  · simp [getKeyBundlesReadLocked, hr]
  · simp [getKeyBundlesReadLocked, checkKeyBundlesV3, hw, hr, hwf, hrf, Ne.symm hcw]
  · simp [getKeyBundlesReadLocked, checkKeyBundlesV3, hw, hr, hwf, hrf, hcw, Ne.symm hcr]
  · simp [getKeyBundlesReadLocked, checkKeyBundlesV3, hw, hr, hwf, hrf, hcw, hcr]

/-- C3 witness: the four cases at a concrete bundle store. -/
theorem C3_key_bundle_read_cases_wit :
    getKeyBundlesReadLocked stateWithBundles envBase 0 0 = .ok (none, none) ∧
    getKeyBundlesReadLocked stateWithBundles envBase 4 0 = .error .bundleEmptyMismatch ∧
    getKeyBundlesReadLocked stateWithBundles envBase 0 6 = .error .bundleEmptyMismatch ∧
    getKeyBundlesReadLocked stateWithBundles envBase 4 6 = .ok (some 4, some 6) ∧
    getKeyBundlesReadLocked stateWithBundles envBadHash 4 6 =
      .error (.wkbIDMismatch 4 5) :=
  ⟨(C3_key_bundle_read_cases stateWithBundles envBase 4 6 4 6).1,
   (C3_key_bundle_read_cases stateWithBundles envBase 4 6 4 6).2.1 (by decide),
   (C3_key_bundle_read_cases stateWithBundles envBase 4 6 4 6).2.2.1 (by decide),
   ((C3_key_bundle_read_cases stateWithBundles envBase 4 6 4 6).2.2.2
      (by decide) (by decide) rfl rfl).2.2 rfl rfl,
   ((C3_key_bundle_read_cases stateWithBundles envBadHash 4 6 4 6).2.2.2
      (by decide) (by decide) rfl rfl).1 (by decide)⟩

/-- C6: `putMDLocked` is content-addressed and idempotent: a successful put
of object `o` returns exactly `makeMdID o.MD`; a second put of the same
object returns the same id and leaves the state exactly as it was (the
object file is not written again); and the first put touched at most the one
object file at that id — the bundle stores and the journal map are
untouched. -/
theorem C6_putMD_content_addressed (s : State) (env : Env)
    (rmds : RootMetadataSigned) (s1 : State) (id : Nat)
    (h : putMDLocked s env rmds = (s1, .ok id)) :
    id = env.makeMdID rmds.MD ∧
    putMDLocked s1 env rmds = (s1, .ok id) ∧
    (∀ i, i ≠ id → s1.mds i = s.mds i) ∧
    s1.wkbFiles = s.wkbFiles ∧ s1.rkbFiles = s.rkbFiles ∧
    s1.branchJournals = s.branchJournals := by
  simp only [putMDLocked] at h
  split at h
  next heq =>
    rw [Prod.mk.injEq] at h
    obtain ⟨hs1, hid⟩ := h
    injection hid with hid
    subst hid
    refine ⟨rfl, ?_, ?_, ?_, ?_, ?_⟩
    · have hg : getMDReadLocked s1 env (env.makeMdID rmds.MD) = .ok rmds := by
        simp [getMDReadLocked, ← hs1]
      simp [putMDLocked, hg]
    · intro i hi
      rw [← hs1]
      simp [hi]
    · rw [← hs1]
    · rw [← hs1]
    · rw [← hs1]
  next e hne heq =>
    exact absurd h (by simp)
  next heq =>
    rw [Prod.mk.injEq] at h
    obtain ⟨hs1, hid⟩ := h
    injection hid with hid
    subst hid
    subst hs1
    refine ⟨rfl, ?_, fun i _ => rfl, rfl, rfl, rfl⟩
    simp [putMDLocked, heq]

/-- C6 witness: two consecutive puts of the same object into the empty
store return the object's content address and the second changes nothing. -/
theorem C6_putMD_content_addressed_wit :
    5 = envBase.makeMdID newRmds.MD ∧
    putMDLocked (putMDLocked emptyState envBase newRmds).1 envBase newRmds =
      ((putMDLocked emptyState envBase newRmds).1, .ok 5) ∧
    (∀ i, i ≠ 5 → (putMDLocked emptyState envBase newRmds).1.mds i = emptyState.mds i) ∧
    (putMDLocked emptyState envBase newRmds).1.wkbFiles = emptyState.wkbFiles ∧
    (putMDLocked emptyState envBase newRmds).1.rkbFiles = emptyState.rkbFiles ∧
    (putMDLocked emptyState envBase newRmds).1.branchJournals = emptyState.branchJournals :=
  C6_putMD_content_addressed emptyState envBase newRmds
    (putMDLocked emptyState envBase newRmds).1 5 rfl

/-- C4: the authorization gate of the read path is evaluated against the
merged (null-branch) history's head, independent of the requested branch:
when that head exists, its bundles resolve, and the caller is not a reader
of it, both `getForTLF` and `getRange` return the Unauthorized error (not a
wrapped storage error), for every requested branch id; when the merged
history has no head, the gate passes for any caller. -/
theorem C4_read_authorization_gate (s : State) (env : Env) (uid bid : Nat)
    (start stop : Int) (m : Nat → Option MdIDJournal)
    (hm : s.branchJournals = some m) :
    (∀ head extra,
      getHeadForTLFReadLocked s env NullBranchID = .ok (some head) →
      getExtraMetadataReadLocked s env head.MD.wkbID head.MD.rkbID = .ok extra →
      env.isReader uid head.MD extra = false →
      getForTLF s env uid bid = .error .unauthorized ∧
      getRange s env uid bid start stop = .error .unauthorized) ∧
    (getHeadForTLFReadLocked s env NullBranchID = .ok none →
      checkGetParamsReadLocked s env uid bid = .ok ()) := by
  constructor
  · intro head extra hhead hextra hreader
    have hgate : checkGetParamsReadLocked s env uid bid = .error .unauthorized := by
      simp [checkGetParamsReadLocked, hhead, hextra, hreader]
    constructor
    · simp [getForTLF, State.isShutdownReadLocked, hm, hgate]
    · simp [getRange, getRangeReadLocked, State.isShutdownReadLocked, hm, hgate]
  · intro hhead
    simp [checkGetParamsReadLocked, hhead]

/-- C4 witness: with the merged head present and a non-reader caller, both
reads are Unauthorized on an unrelated branch; with no merged head, the
gate passes. -/
theorem C4_read_authorization_gate_wit :
    (getForTLF stateWithHead envNoRead 9 3 = .error .unauthorized ∧
     getRange stateWithHead envNoRead 9 3 1 2 = .error .unauthorized) ∧
    checkGetParamsReadLocked emptyState envNoRead 9 3 = .ok () :=
  ⟨(C4_read_authorization_gate stateWithHead envNoRead 9 3 1 2
      (fun b => if b = 0 then some { start := 1, entries := [{ ID := 5 }] } else none)
      rfl).1 headRmds none rfl rfl rfl,
   (C4_read_authorization_gate emptyState envNoRead 9 3 1 2 (fun _ => none) rfl).2 rfl⟩

/-- C2: all-or-nothing rejection of a non-successor write: when the
shutdown check, extra-metadata resolution, validation, attribution,
authorization, and comparison-head resolution all pass but the successor
check against the resolved comparison head fails with `e`, `put` returns the
error and the state — object store, key-bundle store, and every branch
journal — is exactly the state before the call. -/
theorem C2_put_successor_failure_atomic (s : State) (env : Env)
    (uid vkey : Nat) (rmds : RootMetadataSigned) (extra0 : Option ExtraMetadata)
    (m : Nat → Option MdIDJournal) (extra : Option ExtraMetadata)
    (rb : Bool) (head : RootMetadataSigned) (e : Err)
    (hm : s.branchJournals = some m)
    (hx : resolveExtraForPut s env rmds extra0 = .ok extra)
    (hv : env.isValidAndSigned rmds extra = true)
    (hl : env.isLastModifiedBy rmds uid vkey = true)
    (hp : checkPermsForPut s env uid rmds extra = .ok ())
    (hh : resolveBranchHead s env uid rmds = .ok (rb, some head))
    (hs : env.checkValidSuccessor (env.makeMdID head.MD) head.MD rmds.MD = some e) :
    put s env uid vkey rmds extra0 = (s, .error e) := by
  have hsucc : checkSuccessorForPut env (some head) rmds = .error e := by
    simp [checkSuccessorForPut, hs]
  simp [put, State.isShutdownReadLocked, hm, hx, hv, hl, hp, hh, hsucc]

/-- C2 witness: a concrete rejected write on top of `stateWithHead` leaves
the state untouched and surfaces the successor error. -/
theorem C2_put_successor_failure_atomic_wit :
    put stateWithHead envSuccFail 1 2 nextRmds none = (stateWithHead, .error .badRequest) :=
  C2_put_successor_failure_atomic stateWithHead envSuccFail 1 2 nextRmds none
    (fun b => if b = 0 then some { start := 1, entries := [{ ID := 5 }] } else none)
    none false headRmds .badRequest rfl rfl rfl rfl rfl rfl rfl

/-! Helper lemmas about the stages of `put`. -/

/-- A successful persistence phase returns the `recordBranchID` flag it was
handed, unchanged. -/
theorem persistForPut_flag {s : State} {env : Env} {rmds : RootMetadataSigned}
    {extra : Option ExtraMetadata} {rb : Bool} {s2 : State} {b : Bool}
    (h : persistForPut s env rmds extra rb = (s2, .ok b)) : b = rb := by
  simp only [persistForPut] at h
  split at h
  · simp at h
  · split at h
    · simp at h
    · split at h
      · simp at h
      · split at h <;>
          (rw [Prod.mk.injEq] at h; obtain ⟨-, hb⟩ := h; injection hb with hb; exact hb.symm)

/-- The comparison-head resolution sets `recordBranchID` exactly when the
incoming object is unmerged and its branch has no head. -/
theorem resolveBranchHead_flag {s : State} {env : Env} {uid : Nat}
    {rmds : RootMetadataSigned} {rb : Bool} {head : Option RootMetadataSigned}
    (h : resolveBranchHead s env uid rmds = .ok (rb, head)) :
    (rb = true ↔ (rmds.MD.mStatus = .unmerged ∧
      getHeadForTLFReadLocked s env rmds.MD.bid = .ok none)) := by
  unfold resolveBranchHead at h
  cases hhead : getHeadForTLFReadLocked s env rmds.MD.bid with
  | error e => rw [hhead] at h; simp at h
  | ok head0 =>
    rw [hhead] at h
    cases hms : rmds.MD.mStatus with
    | merged =>
      rw [hms] at h
      cases head0 <;>
        (simp only [] at h; rw [Except.ok.injEq, Prod.mk.injEq] at h;
         obtain ⟨hb, -⟩ := h; simp [← hb, hms])
    | unmerged =>
      rw [hms] at h
      cases head0 with
      | none =>
        simp only [] at h
        split at h
        · simp at h
        · rw [Except.ok.injEq, Prod.mk.injEq] at h
          obtain ⟨hb, -⟩ := h
          simp [← hb, hms, hhead]
        · simp at h
      | some h0 =>
        simp only [] at h
        rw [Except.ok.injEq, Prod.mk.injEq] at h
        obtain ⟨hb, -⟩ := h
        simp [← hb, hhead]

/-- C5: when the incoming object is flagged unmerged and its branch has no
head, the comparison head for successor validation is the merged history's
entry at `revision - 1` and the `recordBranchID` flag is set; and a
successful `put` returns `recordBranchID = true` exactly in that case. -/
theorem C5_unmerged_bootstrap (s : State) (env : Env) (uid vkey : Nat)
    (rmds : RootMetadataSigned) (extra0 : Option ExtraMetadata) :
    (∀ r, rmds.MD.mStatus = .unmerged →
      getHeadForTLFReadLocked s env rmds.MD.bid = .ok none →
      getRangeReadLocked s env uid NullBranchID (rmds.MD.revision - 1)
        (rmds.MD.revision - 1) = .ok [r] →
      resolveBranchHead s env uid rmds = .ok (true, some r)) ∧
    (∀ s2 b, put s env uid vkey rmds extra0 = (s2, .ok b) →
      (b = true ↔ (rmds.MD.mStatus = .unmerged ∧
        getHeadForTLFReadLocked s env rmds.MD.bid = .ok none))) := by
  constructor
  · intro r hms hhead hrange
    simp [resolveBranchHead, hhead, hms, hrange]
  · intro s2 b h
    unfold put at h
    split at h
    · simp at h
    · split at h
      · simp at h
      · split at h
        · simp at h
        · split at h
          · simp at h
          · split at h
            · simp at h
            · split at h
              · simp at h
              · rename_i rbv headv hres
                split at h
                · simp at h
                · rw [persistForPut_flag h]
                  exact resolveBranchHead_flag hres

/-- C5 witness: the concrete unmerged bootstrap on branch 7 uses the merged
revision-1 entry as comparison head and the successful `put` reports
`recordBranchID = true`. -/
theorem C5_unmerged_bootstrap_wit :
    resolveBranchHead stateWithHead envBase 1 unmergedRmds = .ok (true, some headRmds) ∧
    (true = true ↔ (unmergedRmds.MD.mStatus = .unmerged ∧
      getHeadForTLFReadLocked stateWithHead envBase unmergedRmds.MD.bid = .ok none)) :=
  ⟨(C5_unmerged_bootstrap stateWithHead envBase 1 2 unmergedRmds none).1
      headRmds rfl rfl rfl,
   (C5_unmerged_bootstrap stateWithHead envBase 1 2 unmergedRmds none).2
      (put stateWithHead envBase 1 2 unmergedRmds none).1 true rfl⟩

/-- C8: the error-wrapping policy of the write path, given a run whose
checks reach the successor stage: the successor-validation failure is
returned exactly as the raw error, unwrapped, while a failure of the object
store (`putMDLocked`), of the key-bundle store (`putExtraMetadataLocked`),
or of the journal append is returned wrapped in the generic storage
error. -/
theorem C8_put_wrapping_policy (s : State) (env : Env) (uid vkey : Nat)
    (rmds : RootMetadataSigned) (extra0 : Option ExtraMetadata)
    (m : Nat → Option MdIDJournal) (extra : Option ExtraMetadata) (rb : Bool)
    (head : Option RootMetadataSigned) (e : Err)
    (hm : s.branchJournals = some m)
    (hx : resolveExtraForPut s env rmds extra0 = .ok extra)
    (hv : env.isValidAndSigned rmds extra = true)
    (hl : env.isLastModifiedBy rmds uid vkey = true)
    (hp : checkPermsForPut s env uid rmds extra = .ok ())
    (hh : resolveBranchHead s env uid rmds = .ok (rb, head)) :
    (∀ h, head = some h →
      env.checkValidSuccessor (env.makeMdID h.MD) h.MD rmds.MD = some e →
      put s env uid vkey rmds extra0 = (s, .error e)) ∧
    (checkSuccessorForPut env head rmds = .ok () →
      ∀ s1, putMDLocked s env rmds = (s1, .error e) →
        put s env uid vkey rmds extra0 = (s1, .error (.wrapped e))) ∧
    (checkSuccessorForPut env head rmds = .ok () →
      ∀ s1 id s2, putMDLocked s env rmds = (s1, .ok id) →
        putExtraMetadataLocked s1 env rmds extra = (s2, .error e) →
        put s env uid vkey rmds extra0 = (s2, .error (.wrapped e))) ∧
    (checkSuccessorForPut env head rmds = .ok () →
      ∀ s1 id s2 j s3, putMDLocked s env rmds = (s1, .ok id) →
        putExtraMetadataLocked s1 env rmds extra = (s2, .ok ()) →
        getOrCreateBranchJournalLocked s2 rmds.MD.bid = (j, s3) →
        j.append rmds.MD.revision { ID := id } = .error e →
        put s env uid vkey rmds extra0 = (s3, .error (.wrapped e))) := by
  have hput : put s env uid vkey rmds extra0 =
      match checkSuccessorForPut env head rmds with
      | .error e2 => (s, .error e2)
      | .ok _ => persistForPut s env rmds extra rb := by
    simp [put, State.isShutdownReadLocked, hm, hx, hv, hl, hp, hh]
  refine ⟨fun h hhead hsucc => ?_, fun hok s1 hmd => ?_,
    fun hok s1 id s2 hmd hex => ?_, fun hok s1 id s2 j s3 hmd hex hoc happ => ?_⟩
  · have hsucc2 : checkSuccessorForPut env head rmds = .error e := by
      rw [hhead]
      simp [checkSuccessorForPut, hsucc]
    rw [hput, hsucc2]
  · rw [hput, hok]
    simp only [persistForPut, hmd]
  · rw [hput, hok]
    simp only [persistForPut, hmd, hex]
  · rw [hput, hok]
    simp only [persistForPut, hmd, hex, hoc, happ]

/-- C8 witness: on a store holding a corrupt envelope at the object's
content address, the object-store failure surfaces from `put` wrapped in
the generic storage error. -/
theorem C8_put_wrapping_policy_wit :
    put stateCorrupt envBase 1 2 newRmds none =
      (stateCorrupt, .error (.wrapped (.mdIDMismatch 5 8))) :=
  (C8_put_wrapping_policy stateCorrupt envBase 1 2 newRmds none
    (fun _ => none) none false none (.mdIDMismatch 5 8)
    rfl rfl rfl rfl rfl rfl).2.1 rfl stateCorrupt rfl

/-! Frame lemmas for the persistence phase. -/

/-- `putMDLocked` touches only the object store. -/
theorem putMDLocked_frame (s : State) (env : Env) (rmds : RootMetadataSigned) :
    (putMDLocked s env rmds).1.wkbFiles = s.wkbFiles ∧
    (putMDLocked s env rmds).1.rkbFiles = s.rkbFiles ∧
    (putMDLocked s env rmds).1.branchJournals = s.branchJournals := by
  simp only [putMDLocked]
  split <;> simp

/-- `putExtraMetadataLocked` touches only the two key-bundle stores. -/
theorem putExtraMetadataLocked_frame (s : State) (env : Env)
    (rmds : RootMetadataSigned) (extra : Option ExtraMetadata) :
    (putExtraMetadataLocked s env rmds extra).1.mds = s.mds ∧
    (putExtraMetadataLocked s env rmds extra).1.branchJournals = s.branchJournals := by
  simp only [putExtraMetadataLocked]
  repeat' split
  all_goals simp

/-- `getOrCreateBranchJournalLocked` touches only the journal map. -/
theorem getOrCreateBranchJournalLocked_frame (s : State) (bid : Nat) :
    (getOrCreateBranchJournalLocked s bid).2.mds = s.mds ∧
    (getOrCreateBranchJournalLocked s bid).2.wkbFiles = s.wkbFiles ∧
    (getOrCreateBranchJournalLocked s bid).2.rkbFiles = s.rkbFiles := by
  simp only [getOrCreateBranchJournalLocked]
  split
  · simp
  · split <;> simp

/-- `getOrCreateBranchJournalLocked` never clears the journal map. -/
theorem getOrCreateBranchJournalLocked_keeps_map (s : State) (bid : Nat)
    (m : Nat → Option MdIDJournal) (hm : s.branchJournals = some m) :
    (getOrCreateBranchJournalLocked s bid).2.branchJournals ≠ none := by
  simp only [getOrCreateBranchJournalLocked, hm]
  split <;> simp [hm]

/-- A successful persistence phase leaves the target branch present in the
journal map. -/
theorem persistForPut_creates {s : State} {env : Env} {rmds : RootMetadataSigned}
    {extra : Option ExtraMetadata} {rb : Bool} {s2 : State} {b : Bool}
    (m : Nat → Option MdIDJournal) (hm : s.branchJournals = some m)
    (h : persistForPut s env rmds extra rb = (s2, .ok b)) :
    s2.journalLookup rmds.MD.bid ≠ none := by
  simp only [persistForPut] at h
  split at h
  · simp at h
  · rename_i s1 id hput
    split at h
    · simp at h
    · rename_i s1b u hextra
      have hs1 : s1.branchJournals = some m := by
        have := (putMDLocked_frame s env rmds).2.2
        rw [hput] at this
        rw [this, hm]
      have hs1b : s1b.branchJournals = some m := by
        have := (putExtraMetadataLocked_frame s1 env rmds extra).2
        rw [hextra] at this
        rw [this, hs1]
      split at h
      · simp at h
      · rename_i j2 happ
        split at h
        · rename_i hnone
          exact absurd hnone
            (getOrCreateBranchJournalLocked_keeps_map s1b rmds.MD.bid m hs1b)
        · rename_i m3 hm3
          rw [Prod.mk.injEq] at h
          obtain ⟨hs2, -⟩ := h
          rw [← hs2]
          simp [State.journalLookup]

/-- C9 counterexample: on the concrete open storage `emptyState` (no merged
head, empty branch-journal map), the read `getForTLF` of branch 5 succeeds,
yet branch 5 is not present in the branch-journal map — the read path of the
source performs no map mutation at all (which is why the embedded reads are
pure in the state), so a first read does not create the branch's journal
handle, contrary to the claim. -/
theorem C9_read_does_not_create :
    getForTLF emptyState envBase 1 5 = .ok none ∧
    journalLength emptyState 5 = .ok 0 ∧
    emptyState.journalLookup 5 = none :=
  ⟨rfl, rfl, rfl⟩

/-- C9 amended: a branch's in-memory journal handle is created lazily on
the first successful write (`put`) to that branch — after a `put` that
returns success, the branch is present in the coordinator's branch-journal
map; read operations do not create it. -/
theorem C9_put_creates_branch (s : State) (env : Env) (uid vkey : Nat)
    (rmds : RootMetadataSigned) (extra0 : Option ExtraMetadata) (b : Bool)
    (h : (put s env uid vkey rmds extra0).2 = .ok b) :
    ((put s env uid vkey rmds extra0).1).journalLookup rmds.MD.bid ≠ none := by
  have h2 : put s env uid vkey rmds extra0 =
      ((put s env uid vkey rmds extra0).1, .ok b) := by
    rw [← h]
  generalize hres : (put s env uid vkey rmds extra0).1 = sfin at h2 ⊢
  unfold put at h2
  split at h2
  · simp at h2
  · rename_i hnotsd
    obtain ⟨m, hm⟩ : ∃ m, s.branchJournals = some m := by
      rcases hbj : s.branchJournals with _ | m
      · exact absurd (by simp [State.isShutdownReadLocked, hbj]) hnotsd
      · exact ⟨m, rfl⟩
    split at h2
    · simp at h2
    · split at h2
      · simp at h2
      · split at h2
        · simp at h2
        · split at h2
          · simp at h2
          · split at h2
            · simp at h2
            · rename_i rbv headv hresolve
              split at h2
              · simp at h2
              · exact persistForPut_creates m hm h2

/-- C9 amended witness: the concrete bootstrap write to the null branch
creates its journal handle. -/
theorem C9_put_creates_branch_wit :
    ((put emptyState envBase 1 2 newRmds none).1).journalLookup newRmds.MD.bid ≠ none :=
  C9_put_creates_branch emptyState envBase 1 2 newRmds none false rfl

/-- With no key-bundle pair to persist, the persistence phase never writes
under either key-bundle store. -/
theorem persistForPut_none_bundle_frame (s : State) (env : Env)
    (rmds : RootMetadataSigned) (rb : Bool) :
    (persistForPut s env rmds none rb).1.wkbFiles = s.wkbFiles ∧
    (persistForPut s env rmds none rb).1.rkbFiles = s.rkbFiles := by
  simp only [persistForPut]
  split
  · rename_i s1 e hput
    have hf := putMDLocked_frame s env rmds
    rw [hput] at hf
    exact ⟨hf.1, hf.2.1⟩
  · rename_i s1 id hput
    have hf := putMDLocked_frame s env rmds
    rw [hput] at hf
    dsimp only at hf
    have hnoop : putExtraMetadataLocked s1 env rmds none = (s1, .ok ()) := rfl
    split
    · rename_i s2 e heq
      rw [hnoop] at heq
      simp at heq
    · rename_i s2 u heq
      rw [hnoop, Prod.mk.injEq] at heq
      obtain ⟨hs2, -⟩ := heq
      subst hs2
      have hocf := getOrCreateBranchJournalLocked_frame s1 rmds.MD.bid
      split
      · exact ⟨hocf.2.1.trans hf.1, hocf.2.2.trans hf.2.1⟩
      · split
        · exact ⟨hocf.2.1.trans hf.1, hocf.2.2.trans hf.2.1⟩
        · exact ⟨hocf.2.1.trans hf.1, hocf.2.2.trans hf.2.1⟩

/-- C10: when the resolved key-bundle pair is absent (no pair supplied and
the metadata references no bundle ids), the bundle-persistence step is a
no-op and the whole `put`, whatever its outcome, writes nothing under the
writer or reader key-bundle stores. -/
theorem C10_absent_bundles_no_write (s : State) (env : Env) (uid vkey : Nat)
    (rmds : RootMetadataSigned)
    (hw : rmds.MD.wkbID = 0) (hr : rmds.MD.rkbID = 0) :
    putExtraMetadataLocked s env rmds none = (s, .ok ()) ∧
    (put s env uid vkey rmds none).1.wkbFiles = s.wkbFiles ∧
    (put s env uid vkey rmds none).1.rkbFiles = s.rkbFiles := by
  refine ⟨rfl, ?_⟩
  have hx : resolveExtraForPut s env rmds none = .ok none := by
    simp [resolveExtraForPut, getExtraMetadataReadLocked, getKeyBundlesReadLocked, hw, hr]
  unfold put
  split
  · exact ⟨rfl, rfl⟩
  · rw [hx]
    simp only []
    split
    · exact ⟨rfl, rfl⟩
    · split
      · exact ⟨rfl, rfl⟩
      · split
        · exact ⟨rfl, rfl⟩
        · split
          · exact ⟨rfl, rfl⟩
          · split
            · exact ⟨rfl, rfl⟩
            · exact persistForPut_none_bundle_frame s env rmds _

/-- C10 witness: the concrete bundle-free bootstrap write succeeds and
leaves both key-bundle stores untouched. -/
theorem C10_absent_bundles_no_write_wit :
    (put emptyState envBase 1 2 newRmds none).2 = .ok false ∧
    (putExtraMetadataLocked emptyState envBase newRmds none = (emptyState, .ok ()) ∧
     (put emptyState envBase 1 2 newRmds none).1.wkbFiles = emptyState.wkbFiles ∧
     (put emptyState envBase 1 2 newRmds none).1.rkbFiles = emptyState.rkbFiles) :=
  ⟨rfl, C10_absent_bundles_no_write emptyState envBase 1 2 newRmds rfl rfl⟩

end KbfsMdStorage
